import Mathlib

/-!
# Verification of the DSA location core (LocationController / LocationBroadcast)

Shallow embedding of `src/Shared/LocationController.cpp` and
`src/Shared/LocationBroadcast.h` from the dynamic-situational-awareness-qt
repository. Doubles are modelled as rationals, Qt signal emissions as explicit
lists of `Signal` values, and Qt object pointers as booleans recording whether
the object has been constructed (`new` never fails in the source, so a pointer
is null exactly when it was never assigned, or when
`QGeoPositionInfoSource::createDefaultSource` returned null).
-/

namespace DsaLocation

/-- `Esri::ArcGISRuntime::Point`: x (longitude), y (latitude), optional z
(altitude), and a spatial-reference identifier. -/
structure Point where
  x : ℚ
  y : ℚ
  z : Option ℚ
  sr : Nat
  deriving DecidableEq, Repr

/-- The WKID of `SpatialReference::wgs84()`. -/
def wgs84 : Nat := 4326

/-- `QGeoCoordinate` type classification (`QGeoCoordinate::type()`). -/
inductive CoordType where
  | coordinate2D
  | coordinate3D
  | invalidCoordinate
  deriving DecidableEq, Repr

/-- `QGeoCoordinate`: validity flag, classification, and components. -/
structure QGeoCoordinate where
  valid : Bool
  ctype : CoordType
  longitude : ℚ
  latitude : ℚ
  altitude : ℚ
  deriving DecidableEq, Repr

/-- `QGeoPositionInfo`: validity flag plus its coordinate. -/
structure QGeoPositionInfo where
  valid : Bool
  coordinate : QGeoCoordinate
  deriving DecidableEq, Repr

/-- The Qt signals `LocationController` emits. -/
inductive Signal where
  | positionChanged (p : Point)
  | headingChanged (h : ℚ)
  | relativeHeadingChanged (h : ℚ)
  | enabledChanged
  | simulatedChanged
  | gpxFilePathChanged
  deriving DecidableEq, Repr

/-- The state of a `LocationController`.  Pointer members (`m_simulator`,
`m_positionSource`, `m_compass`, `m_locationOverlay`) are modelled by a boolean
that is true exactly when the pointer is non-null.  The `…Started` flags record
whether `startUpdates()` / `start()` has been called on the producer without a
matching `stopUpdates()` / `stop()` — i.e. whether the producer is actively
emitting.  `simGpxFile` records the last path handed to
`GPXLocationSimulator::setGpxFile`. -/
structure CState where
  m_enabled : Bool
  m_simulated : Bool
  m_simulator : Bool
  m_positionSource : Bool
  m_compass : Bool
  m_locationOverlay : Bool
  overlayVisible : Bool
  m_gpxFilePath : String
  m_lastKnownHeading : ℚ
  m_lastViewHeading : ℚ
  simStarted : Bool
  positionSourceStarted : Bool
  compassStarted : Bool
  simGpxFile : Option String
  deriving Repr

/-- The platform environment the controller runs against:
whether `QGeoPositionInfoSource::createDefaultSource` returns a source
(positioning hardware / permission present), `DsaUtility::dataPath()`, and
which GPX files are present and readable. -/
structure Env where
  platformHasDefaultSource : Bool
  dataPath : String
  gpxReadable : String → Bool

/-- The packaged default track log assigned on first simulator construction:
`DsaUtility::dataPath() + "/MontereyMounted.gpx"`. -/
def defaultGpxPath (env : Env) : String := env.dataPath ++ "/MontereyMounted.gpx"

/-- Modelled from the spec: the initial member values of `LocationController`
(its header is not under `src/`).  Per the spec, update delivery starts
disabled, the mode starts as Live, no producer is constructed yet, no track
log has ever been configured, and both headings start at zero. -/
def initialState : CState where
  m_enabled := false
  m_simulated := false
  m_simulator := false
  m_positionSource := false
  m_compass := false
  m_locationOverlay := false
  overlayVisible := false
  m_gpxFilePath := ""
  m_lastKnownHeading := 0
  m_lastViewHeading := 0
  simStarted := false
  positionSourceStarted := false
  compassStarted := false
  simGpxFile := none

mutual

/-- `LocationController::initPositionInfoSource`, fuel-indexed because the
simulator branch calls `setGpxFilePath`, which calls back into
`initPositionInfoSource` (the callback is a no-op then, since `m_simulator`
was assigned first; the fuel never runs out at the depths the wrappers use).
On the simulator branch the source assigns `m_simulator`, then calls
`setGpxFilePath` with the packaged default, then connects the position-update
lambda (modelled separately as `simPositionUpdateHandler`).  On the live
branch it assigns `m_positionSource` from `createDefaultSource` (possibly
null), connects the `positionUpdated` lambda, constructs `m_compass` and
connects the compass lambda. -/
def initPositionInfoSourceF : Nat → CState → Bool → Env → CState × List Signal
  | 0, s, _, _ => (s, [])
  | n + 1, s, simulated, env =>
    if simulated && !s.m_simulator then
      setGpxFilePathF n { s with m_simulator := true } (defaultGpxPath env) env
    else if !simulated && !s.m_positionSource then
      ({ s with m_positionSource := env.platformHasDefaultSource, m_compass := true }, [])
    else (s, [])

/-- `LocationController::setGpxFilePath`, fuel-indexed (see
`initPositionInfoSourceF`).  Returns unchanged on an equal path; otherwise
initialises the simulator ignoring `m_simulated`, re-points the simulator via
`setGpxFile`, stores the path and emits `gpxFilePathChanged`. -/
def setGpxFilePathF : Nat → CState → String → Env → CState × List Signal
  | 0, s, _, _ => (s, [])
  | n + 1, s, gpxFilePath, env =>
    if s.m_gpxFilePath = gpxFilePath then (s, [])
    else
      ({ (initPositionInfoSourceF n s true env).1 with
          simGpxFile := some gpxFilePath, m_gpxFilePath := gpxFilePath },
       (initPositionInfoSourceF n s true env).2 ++ [Signal.gpxFilePathChanged])

end

/-- `LocationController::initPositionInfoSource` at sufficient fuel. -/
def initPositionInfoSource (s : CState) (simulated : Bool) (env : Env) :
    CState × List Signal :=
  initPositionInfoSourceF 4 s simulated env

/-- `LocationController::setGpxFilePath` at sufficient fuel. -/
def setGpxFilePath (s : CState) (gpxFilePath : String) (env : Env) :
    CState × List Signal :=
  setGpxFilePathF 4 s gpxFilePath env

/-- `LocationController::setEnabled`.  `Except.error ()` models a null-pointer
dereference: when `createDefaultSource` returned null, the live branch runs
`m_positionSource->startUpdates()` (or `stopUpdates()`) on a null pointer. -/
def setEnabled (s : CState) (enabled : Bool) (env : Env) :
    Except Unit (CState × List Signal) :=
  if s.m_enabled = enabled then .ok (s, [])
  else
    let r := initPositionInfoSourceF 4 s s.m_simulated env
    let s1 := if r.1.m_locationOverlay then { r.1 with overlayVisible := enabled } else r.1
    if s1.m_simulated then
      if s1.m_simulator then
        .ok ({ s1 with simStarted := enabled, m_enabled := enabled },
             r.2 ++ [Signal.enabledChanged])
      else .error ()
    else
      if s1.m_positionSource then
        .ok ({ s1 with positionSourceStarted := enabled, compassStarted := enabled,
                       m_enabled := enabled },
             r.2 ++ [Signal.enabledChanged])
      else .error ()

/-- `LocationController::setSimulated`: returns unchanged if the mode already
matches; otherwise initialises the simulator when switching to Simulated,
flips `m_simulated`, and emits `simulatedChanged`.  It starts or stops no
producer. -/
def setSimulated (s : CState) (simulated : Bool) (env : Env) : CState × List Signal :=
  if s.m_simulated = simulated then (s, [])
  else
    let r := if simulated then initPositionInfoSourceF 4 s true env
             else (s, ([] : List Signal))
    ({ r.1 with m_simulated := simulated }, r.2 ++ [Signal.simulatedChanged])

/-- The lambda connected to `GPXLocationSimulator::positionUpdateAvailable`:
stores the heading in `m_lastKnownHeading` and emits `positionChanged`,
`headingChanged` and `relativeHeadingChanged (heading - m_lastViewHeading)`. -/
def simPositionUpdateHandler (s : CState) (pos : Point) (heading : ℚ) :
    CState × List Signal :=
  ({ s with m_lastKnownHeading := heading },
   [Signal.positionChanged pos, Signal.headingChanged heading,
    Signal.relativeHeadingChanged (heading - s.m_lastViewHeading)])

/-- The lambda connected to `QGeoPositionInfoSource::positionUpdated`:
drops invalid updates, invalid coordinates and unclassifiable coordinate
types; otherwise builds a WGS84 `Point` from longitude/latitude (+ altitude
for a 3-D fix) and emits `positionChanged`. -/
def positionUpdatedHandler (s : CState) (update : QGeoPositionInfo) :
    CState × List Signal :=
  if !update.valid then (s, [])
  else
    let pos := update.coordinate
    if !pos.valid then (s, [])
    else
      match pos.ctype with
      | CoordType.coordinate2D =>
          (s, [Signal.positionChanged ⟨pos.longitude, pos.latitude, none, wgs84⟩])
      | CoordType.coordinate3D =>
          (s, [Signal.positionChanged ⟨pos.longitude, pos.latitude, some pos.altitude, wgs84⟩])
      | CoordType.invalidCoordinate => (s, [])

/-- The lambda connected to `QCompass::readingChanged`: `m_compass->reading()`
may return null (`none`), in which case nothing is emitted; otherwise the
reading's azimuth is emitted as `headingChanged`. -/
def compassReadingHandler (s : CState) (reading : Option ℚ) : CState × List Signal :=
  match reading with
  | none => (s, [])
  | some azimuth => (s, [Signal.headingChanged azimuth])

/-- The lambda connected in `LocationController::setRelativeHeadingSceneView`
to `SceneQuickView::viewpointChanged`: returns unchanged when the camera
heading moved less than 0.1° from `m_lastViewHeading`; otherwise stores the
new heading and, only when updates are disabled, emits
`relativeHeadingChanged (m_lastKnownHeading + m_lastViewHeading)`. -/
def viewpointChangedHandler (s : CState) (sceneViewHeading : ℚ) :
    CState × List Signal :=
  if abs (s.m_lastViewHeading - sceneViewHeading) < (1 : ℚ) / 10 then (s, [])
  else
    let s1 := { s with m_lastViewHeading := sceneViewHeading }
    if !s.m_enabled then
      (s1, [Signal.relativeHeadingChanged (s.m_lastKnownHeading + sceneViewHeading)])
    else (s1, [])

/-- A public mutation of the controller, for stating trace properties. -/
inductive Cmd where
  | setEnabledCmd (enabled : Bool)
  | setSimulatedCmd (simulated : Bool)
  | setGpxCmd (gpxFilePath : String)
  deriving DecidableEq, Repr

/-- Apply one command to a controller state. -/
def applyCmd (env : Env) (s : CState) : Cmd → Except Unit (CState × List Signal)
  | Cmd.setEnabledCmd e => setEnabled s e env
  | Cmd.setSimulatedCmd b => .ok (setSimulated s b env)
  | Cmd.setGpxCmd p => .ok (setGpxFilePath s p env)

/-- Run a list of commands, stopping at a crash. -/
def runCmds (env : Env) : CState → List Cmd → Except Unit CState
  | s, [] => .ok s
  | s, c :: cs =>
    match applyCmd env s c with
    | .ok r => runCmds env r.1 cs
    | .error e => .error e

/-- Modelled from the spec: `GPXLocationSimulator` (not under `src/`) emits
position/heading updates only while started and only when its loaded GPX file
is readable; a missing or malformed file degrades to "no data", never a
crash. -/
def simulatorEmits (env : Env) (s : CState) : Bool :=
  s.simStarted &&
    (match s.simGpxFile with
     | some p => env.gpxReadable p
     | none => false)

/-- `LocationBroadcast`'s members with their in-class initializers from
`src/Shared/LocationBroadcast.h`. -/
structure LocationBroadcast where
  m_enabled : Bool := true
  m_location : Option Point := none
  m_useCurrentLocation : Bool := true
  m_messageType : String := ""
  m_udpPort : Int := -1
  m_frequency : Int := 3000
  deriving Repr

/-- A freshly constructed `LocationBroadcast`: every member takes its
in-class initializer. -/
def mkLocationBroadcast : LocationBroadcast := {}

/-- Environment with positioning hardware present and no readable GPX file. -/
def envDefault : Env where
  platformHasDefaultSource := true
  dataPath := "data"
  gpxReadable := fun _ => false

/-- Environment with no positioning hardware/permission and no readable GPX
file (in particular the packaged default log is unavailable). -/
def envBare : Env where
  platformHasDefaultSource := false
  dataPath := "data"
  gpxReadable := fun _ => false

/-- A concrete point for witnesses and counterexamples. -/
def pt0 : Point := ⟨0, 0, none, wgs84⟩

/-- The fields of `CState` that `initPositionInfoSource` and `setGpxFilePath`
never touch: enabled/mode flags, producer started flags, and both headings. -/
def coreProj (s : CState) : Bool × Bool × Bool × Bool × Bool × ℚ × ℚ :=
  (s.m_enabled, s.m_simulated, s.simStarted, s.positionSourceStarted,
   s.compassStarted, s.m_lastKnownHeading, s.m_lastViewHeading)

/-! ## Helper lemmas -/

/-- `initPositionInfoSourceF` and `setGpxFilePathF` only construct producers
and record the GPX path: they change neither the enabled/mode flags, nor any
started flag, nor either heading. -/
theorem coreProj_preservedF (n : Nat) :
    (∀ s b env, coreProj (initPositionInfoSourceF n s b env).1 = coreProj s) ∧
    (∀ s p env, coreProj (setGpxFilePathF n s p env).1 = coreProj s) := by
  induction n with
  | zero => exact ⟨fun _ _ _ => rfl, fun _ _ _ => rfl⟩
  | succ n ih =>
    refine ⟨fun s b env => ?_, fun s p env => ?_⟩
    · simp only [initPositionInfoSourceF]
      split
      · exact ih.2 _ _ _
      · split
        · rfl
        · rfl
    · simp only [setGpxFilePathF]
      split
      · rfl
      · exact ih.1 _ _ _

/-- Once the simulator exists, no amount of re-initialisation or GPX
re-pointing destroys it. -/
theorem m_simulator_monoF (n : Nat) :
    (∀ s b env, s.m_simulator = true →
      (initPositionInfoSourceF n s b env).1.m_simulator = true) ∧
    (∀ s p env, s.m_simulator = true →
      (setGpxFilePathF n s p env).1.m_simulator = true) := by
  induction n with
  | zero => exact ⟨fun _ _ _ h => h, fun _ _ _ h => h⟩
  | succ n ih =>
    refine ⟨fun s b env h => ?_, fun s p env h => ?_⟩
    · simp only [initPositionInfoSourceF]
      split
      · exact ih.2 _ _ _ rfl
      · split
        · exact h
        · exact h
    · simp only [setGpxFilePathF]
      split
      · exact h
      · exact ih.1 _ _ _ h

/-- Initialising for Simulated mode always leaves a constructed simulator. -/
theorem initF_true_simulator (n : Nat) (s : CState) (env : Env) :
    (initPositionInfoSourceF (n + 1) s true env).1.m_simulator = true := by
  simp only [initPositionInfoSourceF]
  cases hs : s.m_simulator
  · rw [if_pos (by simp [hs])]
    exact (m_simulator_monoF n).2 _ _ _ rfl
  · rw [if_neg (by simp [hs]), if_neg (by simp)]
    exact hs

/-! ## Claim theorems -/

/-- C1 (counterexample): with viewer heading 20, a simulated update with
absolute heading 10 emits relative heading −10, which is neither
`(10 − 20) mod 360 = 350` nor inside `[0, 360)` — the code performs no
modular reduction. -/
theorem c1_counterexample :
    (simPositionUpdateHandler { initialState with m_lastViewHeading := 20 } pt0 10).2 =
      [Signal.positionChanged pt0, Signal.headingChanged 10,
       Signal.relativeHeadingChanged (-10)] ∧
    ¬ ((0 : ℚ) ≤ -10) ∧ ((-10 : ℚ) ≠ 350) := by
  refine ⟨?_, by norm_num, by norm_num⟩
  simp only [simPositionUpdateHandler, initialState]
  norm_num

/-- C1 (amended): a simulated position update emits relative heading
`absoluteHeading − viewerHeading` with no modular reduction (it may lie
outside `[0, 360)`); a viewer-heading change of at least 0.1° while updates
are disabled emits `lastKnownHeading + viewerHeading` (a sum, not a
difference). -/
theorem c1_relative_heading_formula (s : CState) (pos : Point) (heading v : ℚ)
    (hen : s.m_enabled = false)
    (hth : (1 : ℚ) / 10 ≤ abs (s.m_lastViewHeading - v)) :
    (simPositionUpdateHandler s pos heading).2 =
      [Signal.positionChanged pos, Signal.headingChanged heading,
       Signal.relativeHeadingChanged (heading - s.m_lastViewHeading)] ∧
    (viewpointChangedHandler s v).2 =
      [Signal.relativeHeadingChanged (s.m_lastKnownHeading + v)] := by
  refine ⟨rfl, ?_⟩
  unfold viewpointChangedHandler
  rw [if_neg (not_lt.mpr hth)]
  simp [hen]

/-- Witness for `c1_relative_heading_formula` at viewer heading 20, simulated
heading 10 and a camera move to 90. -/
theorem c1_relative_heading_formula_witness :
    ({ initialState with m_lastViewHeading := 20 } : CState).m_enabled = false ∧
    (1 : ℚ) / 10 ≤
      abs (({ initialState with m_lastViewHeading := 20 } : CState).m_lastViewHeading - 90) ∧
    ((simPositionUpdateHandler { initialState with m_lastViewHeading := 20 } pt0 10).2 =
      [Signal.positionChanged pt0, Signal.headingChanged 10,
       Signal.relativeHeadingChanged ((10 : ℚ) - 20)] ∧
     (viewpointChangedHandler { initialState with m_lastViewHeading := 20 } 90).2 =
      [Signal.relativeHeadingChanged ((0 : ℚ) + 90)]) :=
  ⟨rfl, by norm_num [initialState, abs_sub_comm, abs_of_nonneg],
   c1_relative_heading_formula _ pt0 10 90 rfl
     (by norm_num [initialState, abs_sub_comm, abs_of_nonneg])⟩

/-- C2 (counterexample): start Live updates, switch the mode to Simulated,
then toggle updates off and on.  The mode switch never stopped the live
producer, so afterwards the simulator and the live position source are both
started at once — the claimed mutual-exclusion invariant fails. -/
theorem c2_counterexample :
    Except.map (fun s => (s.simStarted, s.positionSourceStarted))
      (runCmds envDefault initialState
        [Cmd.setEnabledCmd true, Cmd.setSimulatedCmd true,
         Cmd.setEnabledCmd false, Cmd.setEnabledCmd true]) =
      Except.ok (true, true) := by rfl

/-- C2 (amended): `setSimulated` starts and stops nothing — it leaves every
producer's started flag (simulator, position source, compass) exactly as it
was, so the previously active producer keeps emitting across a mode switch. -/
theorem c2_mode_switch_stops_nothing (s : CState) (b : Bool) (env : Env) :
    (setSimulated s b env).1.simStarted = s.simStarted ∧
    (setSimulated s b env).1.positionSourceStarted = s.positionSourceStarted ∧
    (setSimulated s b env).1.compassStarted = s.compassStarted := by
  unfold setSimulated
  split
  · exact ⟨rfl, rfl, rfl⟩
  · cases b with
    | false => exact ⟨rfl, rfl, rfl⟩
    | true =>
      have h := (coreProj_preservedF 4).1 s true env
      simp only [coreProj, Prod.mk.injEq] at h
      simp only [if_true]
      exact ⟨h.2.2.1, h.2.2.2.1, h.2.2.2.2.1⟩

/-- C3 (counterexample): from a fresh controller with no track log ever
configured and no readable GPX file anywhere (`envBare`), entering Simulated
mode does not fail: `m_simulated` becomes true and `simulatedChanged` is
emitted — no `ConfigurationError` exists anywhere in the code and
`setSimulated` has no failure path. -/
theorem c3_counterexample :
    (setSimulated initialState true envBare).1.m_simulated = true ∧
    Signal.simulatedChanged ∈ (setSimulated initialState true envBare).2 := by
  refine ⟨rfl, ?_⟩
  show Signal.simulatedChanged ∈ [Signal.gpxFilePathChanged, Signal.simulatedChanged]
  simp

/-- C3 (amended): entering Simulated mode with no track log ever configured
and no packaged default available succeeds as a mode switch (no error is
surfaced, no crash occurs even when updates are then enabled), and the
simulator — pointed at the unreadable packaged default — emits no updates. -/
theorem c3_no_error_and_no_updates :
    Except.map (fun s => (s.m_simulated, simulatorEmits envBare s))
      (runCmds envBare initialState
        [Cmd.setSimulatedCmd true, Cmd.setEnabledCmd true]) =
      Except.ok (true, false) := by rfl

/-- C4 (counterexample): with updates enabled and viewer heading 0, a camera
move to 90° exceeds the 0.1° threshold, yet nothing is republished — the
republish happens only when updates are disabled, not "regardless of whether
updates are currently enabled". -/
theorem c4_counterexample :
    ({ initialState with m_enabled := true } : CState).m_enabled = true ∧
    (1 : ℚ) / 10 ≤
      abs (({ initialState with m_enabled := true } : CState).m_lastViewHeading - 90) ∧
    (viewpointChangedHandler { initialState with m_enabled := true } 90).2 = [] := by
  refine ⟨rfl, by norm_num [initialState], ?_⟩
  unfold viewpointChangedHandler
  rw [if_neg (by norm_num [initialState])]
  simp [initialState]

/-- C4 (amended): a viewer-heading change republishes relative heading if and
only if the change from the last accepted viewer heading is at least 0.1°
AND updates are currently disabled; the accepted viewer heading itself is
updated exactly when the change is at least 0.1°. -/
theorem c4_viewer_republish_iff (s : CState) (v : ℚ) :
    ((viewpointChangedHandler s v).2 ≠ [] ↔
      ((1 : ℚ) / 10 ≤ abs (s.m_lastViewHeading - v) ∧ s.m_enabled = false)) ∧
    (viewpointChangedHandler s v).1.m_lastViewHeading =
      (if (1 : ℚ) / 10 ≤ abs (s.m_lastViewHeading - v) then v
       else s.m_lastViewHeading) := by
  unfold viewpointChangedHandler
  rcases lt_or_le (abs (s.m_lastViewHeading - v)) ((1 : ℚ) / 10) with hlt | hle
  · rw [if_pos hlt]
    refine ⟨?_, ?_⟩
    · constructor
      · intro h; exact absurd rfl h
      · rintro ⟨h1, -⟩; exact absurd h1 (not_le.mpr hlt)
    · rw [if_neg (not_le.mpr hlt)]
  · rw [if_neg (not_lt.mpr hle)]
    cases he : s.m_enabled
    · refine ⟨?_, ?_⟩
      · rw [if_pos (by simp [he])]
        constructor
        · intro _; exact ⟨hle, rfl⟩
        · intro _; simp
      · rw [if_pos (by simp [he]), if_pos hle]
    · refine ⟨?_, ?_⟩
      · rw [if_neg (by simp [he])]
        constructor
        · intro h; exact absurd rfl h
        · rintro ⟨-, h2⟩; exact absurd h2 (by simp)
      · rw [if_neg (by simp [he]), if_pos hle]

/-- C5 (code bug): when `QGeoPositionInfoSource::createDefaultSource` returns
null (no positioning hardware or permission), enabling Live-mode updates runs
`m_positionSource->startUpdates()` on a null pointer — modelled as
`Except.error ()` — instead of the recoverable no-data condition the spec
requires. -/
theorem c5_null_source_crash :
    setEnabled initialState true envBare = Except.error () := rfl

/-- C6 (counterexample): the in-class initializer in
`src/Shared/LocationBroadcast.h` is `bool m_enabled = true`, so a freshly
constructed `LocationBroadcast` is NOT disabled. -/
theorem c6_counterexample : ¬ (mkLocationBroadcast.m_enabled = false) := by
  simp [mkLocationBroadcast]

/-- C6 (amended): a freshly constructed `LocationBroadcast` publisher is in
the Enabled state — its enabled flag is true. -/
theorem c6_initially_enabled : mkLocationBroadcast.m_enabled = true := rfl

/-- C7: a Live positioning update is dropped (state untouched, nothing
emitted) exactly when the update is invalid, its coordinate is invalid, or
its coordinate type is unclassifiable; otherwise a WGS84 canonical position
is built from longitude and latitude — carrying the altitude exactly when
the fix is 3-D — and emitted as `positionChanged`. -/
theorem c7_live_fix_validation (s : CState) (u : QGeoPositionInfo) :
    positionUpdatedHandler s u =
      if u.valid = true ∧ u.coordinate.valid = true ∧
          u.coordinate.ctype ≠ CoordType.invalidCoordinate then
        (s, [Signal.positionChanged
          { x := u.coordinate.longitude, y := u.coordinate.latitude,
            z := if u.coordinate.ctype = CoordType.coordinate3D
                 then some u.coordinate.altitude else none,
            sr := wgs84 }])
      else (s, []) := by
  obtain ⟨uv, cv, ct, lon, lat, alt⟩ := u
  cases uv <;> cases cv <;> cases ct <;> simp [positionUpdatedHandler]

/-- C8: a compass event with no reading (`m_compass->reading()` null) emits
nothing and leaves the state — in particular the last good heading —
untouched; a reading with azimuth `a` emits exactly `headingChanged a`, a
plain finite degree value taken verbatim from the reading. -/
theorem c8_compass_reading (s : CState) (azimuth : ℚ) :
    compassReadingHandler s none = (s, []) ∧
    compassReadingHandler s (some azimuth) = (s, [Signal.headingChanged azimuth]) :=
  ⟨rfl, rfl⟩

/-- C9: `m_lastKnownHeading` — the heading used when a viewer change
recomputes relative heading — is written only by the Simulated producer's
update handler; a Live compass reading emits `headingChanged` but leaves it
unchanged, as do Live position updates and viewer-heading changes. -/
theorem c9_lastKnownHeading_writers (s : CState) (azimuth : ℚ) (pos : Point)
    (heading v : ℚ) (u : QGeoPositionInfo) :
    (simPositionUpdateHandler s pos heading).1.m_lastKnownHeading = heading ∧
    (compassReadingHandler s (some azimuth)).1.m_lastKnownHeading =
      s.m_lastKnownHeading ∧
    (compassReadingHandler s (some azimuth)).2 = [Signal.headingChanged azimuth] ∧
    (positionUpdatedHandler s u).1.m_lastKnownHeading = s.m_lastKnownHeading ∧
    (viewpointChangedHandler s v).1.m_lastKnownHeading = s.m_lastKnownHeading := by
  refine ⟨rfl, rfl, rfl, ?_, ?_⟩
  · obtain ⟨uv, cv, ct, lon, lat, alt⟩ := u
    cases uv <;> cases cv <;> cases ct <;> rfl
  · unfold viewpointChangedHandler
    split
    · rfl
    · split <;> rfl

/-- C10: `setGpxFilePath` with the currently stored path leaves the whole
controller state unchanged and emits nothing (no re-point, no restart); with
a different path it constructs the simulator immediately — regardless of
`m_simulated`, so also while Live mode is current — re-points it to the new
file, and stores the path. -/
theorem c10_setGpxFilePath_effect (s : CState) (p : String) (env : Env)
    (hne : s.m_gpxFilePath ≠ p) :
    setGpxFilePath s s.m_gpxFilePath env = (s, []) ∧
    (setGpxFilePath s p env).1.m_simulator = true ∧
    (setGpxFilePath s p env).1.simGpxFile = some p ∧
    (setGpxFilePath s p env).1.m_gpxFilePath = p := by
  refine ⟨?_, ?_, ?_, ?_⟩
  · simp [setGpxFilePath, setGpxFilePathF]
  · show (setGpxFilePathF 4 s p env).1.m_simulator = true
    simp only [setGpxFilePathF]
    rw [if_neg hne]
    exact initF_true_simulator 2 s env
  · show (setGpxFilePathF 4 s p env).1.simGpxFile = some p
    simp only [setGpxFilePathF]
    rw [if_neg hne]
  · show (setGpxFilePathF 4 s p env).1.m_gpxFilePath = p
    simp only [setGpxFilePathF]
    rw [if_neg hne]

/-- Witness for `c10_setGpxFilePath_effect` from a fresh (Live-mode)
controller and the path "x". -/
theorem c10_setGpxFilePath_effect_witness :
    initialState.m_gpxFilePath ≠ "x" ∧
    (setGpxFilePath initialState initialState.m_gpxFilePath envDefault =
      (initialState, []) ∧
     (setGpxFilePath initialState "x" envDefault).1.m_simulator = true ∧
     (setGpxFilePath initialState "x" envDefault).1.simGpxFile = some "x" ∧
     (setGpxFilePath initialState "x" envDefault).1.m_gpxFilePath = "x") :=
  ⟨by decide, c10_setGpxFilePath_effect initialState "x" envDefault (by decide)⟩

end DsaLocation
